import Mathlib

/-!
Verification of the SIP dialer repository against its specification.

The definitions below are shallow embeddings of the Python sources:
* `AudioConverter` (G.711 µ-law / A-law companding) from `enhanced_sip_manager.py`
* RTP packetization and parsing from `enhanced_sip_manager.py`
* codec selection from `enhanced_sip_manager.py`
* `answer_deferred_call` from `enhanced_sip_manager.py`
* the deferred-call coordinator `on_state` from `sip_dialer.py`
* registration retry from `working_sip_manager.py`
* MD5 digest authentication from `working_sip_manager.py` / `enhanced_sip_manager.py`

Machine integers are modelled as `Nat`/`Int` with explicit masking,
byte strings as `List Nat` (each element a byte value), and fallible
operations return `Except`.
-/

/- ===================== G.711 codec (AudioConverter) ===================== -/

/-- The µ-law decoding table from `AudioConverter.ulaw2lin`
(128 entries, sign bit handled separately). -/
def ULAW_TABLE : List Int := [
  -32124, -31100, -30076, -29052, -28028, -27004, -25980, -24956,
  -23932, -22908, -21884, -20860, -19836, -18812, -17788, -16764,
  -15996, -15484, -14972, -14460, -13948, -13436, -12924, -12412,
  -11900, -11388, -10876, -10364, -9852, -9340, -8828, -8316,
  -7932, -7676, -7420, -7164, -6908, -6652, -6396, -6140,
  -5884, -5628, -5372, -5116, -4860, -4604, -4348, -4092,
  -3900, -3772, -3644, -3516, -3388, -3260, -3132, -3004,
  -2876, -2748, -2620, -2492, -2364, -2236, -2108, -1980,
  -1884, -1820, -1756, -1692, -1628, -1564, -1500, -1436,
  -1372, -1308, -1244, -1180, -1116, -1052, -988, -924,
  -876, -844, -812, -780, -748, -716, -684, -652,
  -620, -588, -556, -524, -492, -460, -428, -396,
  -372, -356, -340, -324, -308, -292, -276, -260,
  -244, -228, -212, -196, -180, -164, -148, -132,
  -120, -112, -104, -96, -88, -80, -72, -64,
  -56, -48, -40, -32, -24, -16, -8, 0]

/-- A-law decoding table from `AudioConverter.alaw2lin`
(128 entries, sign bit handled separately). -/
def ALAW_TABLE : List Int := [
  -5504, -5248, -6016, -5760, -4480, -4224, -4992, -4736,
  -7552, -7296, -8064, -7808, -6528, -6272, -7040, -6784,
  -2752, -2624, -3008, -2880, -2240, -2112, -2496, -2368,
  -3776, -3648, -4032, -3904, -3264, -3136, -3520, -3392,
  -22016, -20992, -24064, -23040, -17920, -16896, -19968, -18944,
  -30208, -29184, -32256, -31232, -26112, -25088, -28160, -27136,
  -11008, -10496, -12032, -11520, -8960, -8448, -9984, -9472,
  -15104, -14592, -16128, -15616, -13056, -12544, -14080, -13568,
  -344, -328, -376, -360, -280, -264, -312, -296,
  -472, -456, -504, -488, -408, -392, -440, -424,
  -88, -72, -120, -104, -24, -8, -56, -40,
  -216, -200, -248, -232, -152, -136, -184, -168,
  -1376, -1312, -1504, -1440, -1120, -1056, -1248, -1184,
  -1888, -1824, -2016, -1952, -1632, -1568, -1760, -1696,
  -688, -656, -752, -720, -560, -528, -624, -592,
  -944, -912, -1008, -976, -816, -784, -880, -848]

/-- One byte of `AudioConverter.ulaw2lin`: extract sign bit and magnitude,
look up the table, and apply the sign (`if not sign: linear = -linear`). -/
def ulaw2lin_sample (byte : Nat) : Int :=
  let sign := byte &&& 0x80
  let magnitude := byte &&& 0x7F
  let linear := ULAW_TABLE.getD magnitude 0
  if sign = 0 then -linear else linear

/-- One byte of `AudioConverter.alaw2lin` (`if sign: linear = -linear`). -/
def alaw2lin_sample (byte : Nat) : Int :=
  let sign := byte &&& 0x80
  let magnitude := byte &&& 0x7F
  let linear := ALAW_TABLE.getD magnitude 0
  if sign = 0 then linear else -linear

/-- Whether a value fits a signed 16-bit sample; Python's `array('h')`
raises `OverflowError` on `append` outside this range. -/
def int16OK (v : Int) : Bool := decide (-32768 ≤ v) && decide (v ≤ 32767)

/-- Embedding of `AudioConverter.ulaw2lin` on a byte string (each element one µ-law byte).
The `array('h')`↔bytes packing is kept at the sample level; a `width`
other than 2 raises `ValueError`, an out-of-range sample would raise
`OverflowError` on append. -/
def ulaw2lin (data : List Nat) (width : Nat) : Except String (List Int) :=
  if width ≠ 2 then Except.error "ValueError: Only 16-bit linear samples supported"
  else data.mapM (fun b =>
    let v := ulaw2lin_sample b
    if int16OK v then Except.ok v else Except.error "OverflowError")

/-- Embedding of `AudioConverter.alaw2lin` on a byte string. -/
def alaw2lin (data : List Nat) (width : Nat) : Except String (List Int) :=
  if width ≠ 2 then Except.error "ValueError: Only 16-bit linear samples supported"
  else data.mapM (fun b =>
    let v := alaw2lin_sample b
    if int16OK v then Except.ok v else Except.error "OverflowError")

/-- Structural core of the µ-law segment search; the fuel argument is
`7 - seg`, so running out of fuel is exactly the loop bound `seg < 7`. -/
def ulawSegGo : Nat → Nat → Nat → Nat
  | 0, _, seg => seg
  | fuel + 1, temp, seg => if temp = 0 then seg else ulawSegGo fuel (temp / 2) (seg + 1)

/-- The µ-law segment search of `AudioConverter.lin2ulaw`:
`while temp != 0 and seg < 7: seg += 1; temp >>= 1`. -/
def ulawSegLoop (temp seg : Nat) : Nat := ulawSegGo (7 - seg) temp seg

/-- One sample of `AudioConverter.lin2ulaw`: bias by 33, fold in the sign,
clip, find the logarithmic segment, quantize, and complement the byte. -/
def lin2ulaw_sample (sample : Int) : Nat :=
  let biased0 : Int := sample + 33
  let sign : Nat := if biased0 < 0 then 0x00 else 0x80
  let biased1 : Int := if biased0 < 0 then -biased0 else biased0
  let biased : Nat := (if biased1 > 32767 then 32767 else biased1).toNat
  let seg := ulawSegLoop (biased >>> 7) 0
  let uval := if seg = 0 then (biased >>> 1) &&& 0x0F
              else ((biased >>> seg) &&& 0x0F) ||| 0x10
  (sign ||| (seg <<< 4) ||| uval) ^^^ 0xFF

/-- Structural core of the A-law segment search (fuel is `7 - seg`). -/
def alawSegGo : Nat → Nat → Nat → Nat
  | 0, _, seg => seg
  | fuel + 1, temp, seg => if temp = 1 then seg else alawSegGo fuel (temp / 2) (seg + 1)

/-- The A-law segment search of `AudioConverter.lin2alaw`:
`seg = 1; temp = sample >> 8; while temp != 1 and seg < 7: seg += 1; temp >>= 1`. -/
def alawSegLoop (temp seg : Nat) : Nat := alawSegGo (7 - seg) temp seg

/-- One sample of `AudioConverter.lin2alaw`. -/
def lin2alaw_sample (sample0 : Int) : Nat :=
  let sign : Nat := if sample0 < 0 then 0x00 else 0x80
  let sample1 : Int := if sample0 < 0 then -sample0 else sample0
  let sample : Nat := (if sample1 > 32767 then 32767 else sample1).toNat
  let alaw_byte :=
    if sample ≥ 256 then
      let seg := alawSegLoop (sample >>> 8) 1
      let aval := if seg = 1 then (sample >>> 4) &&& 0x0F
                  else (sample >>> (seg + 3)) &&& 0x0F
      (seg <<< 4) ||| aval
    else
      sample >>> 4
  (sign ||| alaw_byte) ^^^ 0x55

/-- Embedding of `AudioConverter.lin2ulaw` on a list of 16-bit samples; `bytearray.append`
raises `ValueError` outside `[0, 256)`. -/
def lin2ulaw (data : List Int) (width : Nat) : Except String (List Nat) :=
  if width ≠ 2 then Except.error "ValueError: Only 16-bit linear samples supported"
  else data.mapM (fun s =>
    let b := lin2ulaw_sample s
    if b < 256 then Except.ok b else Except.error "ValueError")

/-- Embedding of `AudioConverter.lin2alaw` on a list of 16-bit samples. -/
def lin2alaw (data : List Int) (width : Nat) : Except String (List Nat) :=
  if width ≠ 2 then Except.error "ValueError: Only 16-bit linear samples supported"
  else data.mapM (fun s =>
    let b := lin2alaw_sample s
    if b < 256 then Except.ok b else Except.error "ValueError")

/-- PCMU round trip: encode one sample then decode (`decode(encode(x))`). -/
def ulawRoundtrip (x : Int) : Except String (List Int) :=
  lin2ulaw [x] 2 >>= fun enc => ulaw2lin enc 2

/-- PCMA round trip: encode one sample then decode. -/
def alawRoundtrip (x : Int) : Except String (List Int) :=
  lin2alaw [x] 2 >>= fun enc => alaw2lin enc 2

/-- G.711 µ-law quantization step of the segment holding magnitude `m`
(biased segment boundaries per ITU-T G.711; steps 8·2^seg). -/
def g711SegStepU (m : Nat) : Nat :=
  if m < 124 then 8 else if m < 380 then 16 else if m < 892 then 32
  else if m < 1916 then 64 else if m < 3964 then 128 else if m < 8060 then 256
  else if m < 16252 then 512 else 1024

/-- G.711 A-law quantization step of the segment holding magnitude `m`. -/
def g711SegStepA (m : Nat) : Nat :=
  if m < 512 then 16 else if m < 1024 then 32
  else if m < 2048 then 64 else if m < 4096 then 128 else if m < 8192 then 256
  else if m < 16384 then 512 else 1024

/-- G.711 µ-law known quantization error bound of a sample: one quantization
step of its segment, plus the clipping excess beyond the greatest decodable
µ-law magnitude 32124. -/
def ulawQuantBound (x : Int) : Int :=
  max (|x| - 32124) 0 + (g711SegStepU (min x.natAbs 32124) : Int)

/-- G.711 A-law known quantization error bound of a sample: one quantization
step of its segment, plus the clipping excess beyond the greatest decodable
A-law magnitude 32256. -/
def alawQuantBound (x : Int) : Int :=
  max (|x| - 32256) 0 + (g711SegStepA (min x.natAbs 32256) : Int)

/-- The round trip of `x` succeeded (no exception), gave exactly one sample
representable in 16 bits, and that sample is within `bound x` of `x`. -/
def roundtripOK (rt : Int → Except String (List Int)) (bound : Int → Int) (x : Int) : Bool :=
  match rt x with
  | Except.ok [v] => int16OK v && decide (|v - x| ≤ bound x)
  | _ => false

/- ===================== RTP packetization and parsing ===================== -/

/-- Byte access `packet[i]` (all uses below are within bounds). -/
def byteAt (p : List Nat) (i : Nat) : Nat := p.getD i 0

/-- Big-endian `struct.pack('>H', n)` for `n < 2^16`. -/
def pack16 (n : Nat) : List Nat := [(n >>> 8) &&& 0xFF, n &&& 0xFF]

/-- Big-endian `struct.pack('>I', n)` for `n < 2^32`. -/
def pack32 (n : Nat) : List Nat :=
  [(n >>> 24) &&& 0xFF, (n >>> 16) &&& 0xFF, (n >>> 8) &&& 0xFF, n &&& 0xFF]

/-- Big-endian `struct.unpack('>H', packet[i:i+2])`. -/
def unpack16 (p : List Nat) (i : Nat) : Nat := byteAt p i * 256 + byteAt p (i + 1)

/-- Big-endian `struct.unpack('>I', packet[i:i+4])`. -/
def unpack32 (p : List Nat) (i : Nat) : Nat :=
  ((byteAt p i * 256 + byteAt p (i + 1)) * 256 + byteAt p (i + 2)) * 256 + byteAt p (i + 3)

/-- Embedding of `EnhancedRTPManager._create_rtp_packet`: a 12-byte RTP header
(`struct.pack('>BBHII', ...)`, version 2, no padding/extension/CSRC/marker,
payload type forced to 0 unless 0 or 8) followed by the payload. -/
def create_rtp_packet (sequence timestamp ssrc : Nat) (payload : List Nat)
    (payload_type : Nat) : List Nat :=
  let version := 2
  let padding := 0
  let extension := 0
  let cc := 0
  let marker := 0
  let pt := if payload_type = 0 ∨ payload_type = 8 then payload_type else 0
  ((version <<< 6) ||| (padding <<< 5) ||| (extension <<< 4) ||| cc) ::
  ((marker <<< 7) ||| pt) ::
  (pack16 (sequence &&& 0xFFFF) ++ pack32 (timestamp &&& 0xFFFFFFFF) ++
   pack32 (ssrc &&& 0xFFFFFFFF) ++ payload)

/-- The RTP chunk size: `self.chunk_size = 160` (20ms at 8kHz). -/
def chunk_size : Nat := 160

/-- The per-send counter update of `_send_audio_thread`:
`sequence = (sequence + 1) & 0xFFFF; timestamp = (timestamp + chunk_size) & 0xFFFFFFFF`. -/
def advanceStream (sequence timestamp : Nat) : Nat × Nat :=
  ((sequence + 1) &&& 0xFFFF, (timestamp + chunk_size) &&& 0xFFFFFFFF)

/-- Tail of `_parse_rtp_header_and_payload`: remove trailing padding when the
padding bit is set (`padlen = packet[-1]`, removed only if `padlen < end - offset`)
and slice `packet[offset:end]`, returning `None` for an empty slice. -/
def rtpFinish (packet : List Nat) (pt offset padding : Nat) : Nat × Option (List Nat) :=
  let e0 := packet.length
  let e := if padding ≠ 0 then
             (let padlen := byteAt packet (e0 - 1)
              if padlen < e0 - offset then e0 - padlen else e0)
           else e0
  if offset ≥ e then (pt, none) else (pt, some ((packet.drop offset).take (e - offset)))

/-- Embedding of `EnhancedRTPManager._parse_rtp_header_and_payload`: returns
`(payload_type, payload)`, handling CSRC list, extension header and padding.
The Python `try/except` wrapper is vacuous here: all list accesses are
guarded by the explicit length checks, so no exception can occur. -/
def parse_rtp_header_and_payload (packet : List Nat) : Nat × Option (List Nat) :=
  if packet.length < 12 then (0, none) else
  let b1 := byteAt packet 0
  let b2 := byteAt packet 1
  let padding := (b1 >>> 5) &&& 0x01
  let extension := (b1 >>> 4) &&& 0x01
  let csrc_count := b1 &&& 0x0F
  let pt := b2 &&& 0x7F
  let csrc_bytes := csrc_count * 4
  if packet.length < 12 + csrc_bytes then (pt, none) else
  let offset := 12 + csrc_bytes
  if extension ≠ 0 then
    if packet.length < offset + 4 then (pt, none) else
    let ext_len_words := unpack16 packet (offset + 2)
    let ext_len_bytes := ext_len_words * 4
    if packet.length < offset + 4 + ext_len_bytes then (pt, none) else
    rtpFinish packet pt (offset + 4 + ext_len_bytes) padding
  else
    rtpFinish packet pt offset padding

/- ===================== helper lemmas on bit masks ===================== -/

/-- Masking with `0xFFFF` is reduction mod 2^16. -/
lemma and_mask16 (x : Nat) : x &&& 0xFFFF = x % 65536 := by
  simpa using Nat.and_pow_two_sub_one_eq_mod x 16

/-- Masking with `0xFFFFFFFF` is reduction mod 2^32. -/
lemma and_mask32 (x : Nat) : x &&& 0xFFFFFFFF = x % 4294967296 := by
  simpa using Nat.and_pow_two_sub_one_eq_mod x 32

/-- Masking with `0xFF` is reduction mod 2^8. -/
lemma and_mask8 (x : Nat) : x &&& 0xFF = x % 256 := by
  simpa using Nat.and_pow_two_sub_one_eq_mod x 8

/-- A 32-bit word written by `pack32` is recovered by big-endian unpacking. -/
lemma unpack32_pack32 (n : Nat) (h : n < 4294967296) (post : List Nat) :
    unpack32 (pack32 n ++ post) 0 = n := by
  simp [unpack32, pack32, byteAt, and_mask8, Nat.shiftRight_eq_div_pow]
  omega

/-- C4: for every 16-bit PCM sample in {-32768, -1, 0, 1, 32767} and both
codecs (PCMU via `lin2ulaw` then `ulaw2lin`, PCMA via `lin2alaw` then
`alaw2lin`), decoding the encoding raises no exception, yields exactly one
value representable in 16 bits without overflow, and that value is within
G.711's known quantization error bound of the input sample. -/
theorem claim4_g711_roundtrip :
    ∀ x ∈ ([-32768, -1, 0, 1, 32767] : List Int),
      roundtripOK ulawRoundtrip ulawQuantBound x = true ∧
      roundtripOK alawRoundtrip alawQuantBound x = true := by
  decide

/-- Witness for C4 at the concrete sample `-32768`. -/
theorem claim4_witness :
    roundtripOK ulawRoundtrip ulawQuantBound (-32768) = true ∧
    roundtripOK alawRoundtrip alawQuantBound (-32768) = true :=
  claim4_g711_roundtrip (-32768) (by decide)

lemma byteAt_cons_zero (a : Nat) (l : List Nat) : byteAt (a :: l) 0 = a := rfl

lemma byteAt_cons_succ (a : Nat) (l : List Nat) (i : Nat) :
    byteAt (a :: l) (i + 1) = byteAt l i := rfl

/-- Parsing a packet with no padding, no extension and no CSRC (first byte
0x80) returns the payload after the 12-byte header. -/
lemma parse_simple (b2 : Nat) (rest P : List Nat) (hr : rest.length = 10) (hP : P ≠ []) :
    parse_rtp_header_and_payload (128 :: b2 :: (rest ++ P)) = (b2 &&& 0x7F, some P) := by
  have hlen : (128 :: b2 :: (rest ++ P)).length = 12 + P.length := by
    simp [hr]; omega
  have hcc : (128 : Nat) &&& 0x0F = 0 := by decide
  have hext : ((128 : Nat) >>> 4) &&& 0x01 = 0 := by decide
  have hpad : ((128 : Nat) >>> 5) &&& 0x01 = 0 := by decide
  have hP' : 0 < P.length := List.length_pos.mpr hP
  simp only [parse_rtp_header_and_payload, rtpFinish, byteAt_cons_zero, byteAt_cons_succ,
    hcc, hext, hpad, hlen, Nat.zero_mul, Nat.add_zero]
  rw [if_neg (by omega)]
  rw [if_neg (by omega)]
  rw [if_neg (by simp)]
  rw [if_neg (by simp [hP])]
  rw [if_neg (by simp)]
  have hdrop : (128 :: b2 :: (rest ++ P)).drop 12 = P := by
    have he : (128 :: b2 :: (rest ++ P)) = (128 :: b2 :: rest) ++ P := by simp
    rw [he]
    have h12 : (128 :: b2 :: rest).length = 12 := by simp [hr]
    rw [← h12, List.drop_left]
  rw [hdrop]
  have htake : 12 + P.length - 12 = P.length := by omega
  rw [htake, List.take_length]

/-- C5: packetizing (seq 65535, ts 4294967295, SSRC X, payload P, payload
type 0) yields a packet whose 12-byte header parses back to the same
sequence, timestamp and SSRC, whose payload parses back to P, and the
per-send counter update wraps the sequence to (65535+1) mod 2^16 = 0 and
the timestamp to (4294967295+160) mod 2^32. -/
theorem claim5_rtp_roundtrip_wrap (X : Nat) (P : List Nat)
    (hX : X < 4294967296) (hP : P ≠ []) :
    unpack16 (create_rtp_packet 65535 4294967295 X P 0) 2 = 65535 ∧
    unpack32 (create_rtp_packet 65535 4294967295 X P 0) 4 = 4294967295 ∧
    unpack32 (create_rtp_packet 65535 4294967295 X P 0) 8 = X ∧
    parse_rtp_header_and_payload (create_rtp_packet 65535 4294967295 X P 0) = (0, some P) ∧
    advanceStream 65535 4294967295 = ((65535 + 1) % 65536, (4294967295 + 160) % 4294967296) := by
  have hXm : X &&& 0xFFFFFFFF = X := by rw [and_mask32]; omega
  have hp16 : pack16 (65535 &&& 0xFFFF) = [255, 255] := by decide
  have hp32 : pack32 (4294967295 &&& 0xFFFFFFFF) = [255, 255, 255, 255] := by decide
  have hpt : (if (0:Nat) = 0 ∨ (0:Nat) = 8 then (0:Nat) else 0) = 0 := by simp
  have hpkt : create_rtp_packet 65535 4294967295 X P 0 =
      128 :: 0 :: 255 :: 255 :: 255 :: 255 :: 255 :: 255 ::
      (pack32 (X &&& 0xFFFFFFFF) ++ P) := by
    unfold create_rtp_packet
    simp only [hp16, hp32, hpt, List.cons_append, List.nil_append, List.append_assoc, ite_self]
    have hb0 : ((2:Nat) <<< 6 ||| 0 <<< 5 ||| 0 <<< 4 ||| 0) = 128 := by decide
    have hb1 : ((0:Nat) <<< 7 ||| 0) = 0 := by decide
    rw [hb0, hb1]
  refine ⟨?_, ?_, ?_, ?_, ?_⟩
  · rw [hpkt]
    have e2 : byteAt (128 :: 0 :: 255 :: 255 :: 255 :: 255 :: 255 :: 255 ::
        (pack32 (X &&& 0xFFFFFFFF) ++ P)) 2 = 255 := rfl
    have e3 : byteAt (128 :: 0 :: 255 :: 255 :: 255 :: 255 :: 255 :: 255 ::
        (pack32 (X &&& 0xFFFFFFFF) ++ P)) 3 = 255 := rfl
    simp only [unpack16]
    rw [e2, e3]
  · rw [hpkt]
    have e4 : byteAt (128 :: 0 :: 255 :: 255 :: 255 :: 255 :: 255 :: 255 ::
        (pack32 (X &&& 0xFFFFFFFF) ++ P)) 4 = 255 := rfl
    have e5 : byteAt (128 :: 0 :: 255 :: 255 :: 255 :: 255 :: 255 :: 255 ::
        (pack32 (X &&& 0xFFFFFFFF) ++ P)) 5 = 255 := rfl
    have e6 : byteAt (128 :: 0 :: 255 :: 255 :: 255 :: 255 :: 255 :: 255 ::
        (pack32 (X &&& 0xFFFFFFFF) ++ P)) 6 = 255 := rfl
    have e7 : byteAt (128 :: 0 :: 255 :: 255 :: 255 :: 255 :: 255 :: 255 ::
        (pack32 (X &&& 0xFFFFFFFF) ++ P)) 7 = 255 := rfl
    simp only [unpack32]
    rw [e4, e5, e6, e7]
  · rw [hpkt]
    have e8 : byteAt (128 :: 0 :: 255 :: 255 :: 255 :: 255 :: 255 :: 255 ::
        (pack32 (X &&& 0xFFFFFFFF) ++ P)) 8 = ((X &&& 0xFFFFFFFF) >>> 24) &&& 0xFF := rfl
    have e9 : byteAt (128 :: 0 :: 255 :: 255 :: 255 :: 255 :: 255 :: 255 ::
        (pack32 (X &&& 0xFFFFFFFF) ++ P)) 9 = ((X &&& 0xFFFFFFFF) >>> 16) &&& 0xFF := rfl
    have e10 : byteAt (128 :: 0 :: 255 :: 255 :: 255 :: 255 :: 255 :: 255 ::
        (pack32 (X &&& 0xFFFFFFFF) ++ P)) 10 = ((X &&& 0xFFFFFFFF) >>> 8) &&& 0xFF := rfl
    have e11 : byteAt (128 :: 0 :: 255 :: 255 :: 255 :: 255 :: 255 :: 255 ::
        (pack32 (X &&& 0xFFFFFFFF) ++ P)) 11 = (X &&& 0xFFFFFFFF) &&& 0xFF := rfl
    simp only [unpack32]
    rw [e8, e9, e10, e11, hXm]
    rw [and_mask8 (X >>> 24), and_mask8 (X >>> 16), and_mask8 (X >>> 8), and_mask8 X]
    rw [Nat.shiftRight_eq_div_pow, Nat.shiftRight_eq_div_pow, Nat.shiftRight_eq_div_pow]
    have p24 : (2:Nat) ^ 24 = 16777216 := by norm_num
    have p16 : (2:Nat) ^ 16 = 65536 := by norm_num
    have p8 : (2:Nat) ^ 8 = 256 := by norm_num
    rw [p24, p16, p8]
    omega
  · rw [hpkt]
    have he : (128 :: 0 :: 255 :: 255 :: 255 :: 255 :: 255 :: 255 ::
        (pack32 (X &&& 0xFFFFFFFF) ++ P)) =
        128 :: 0 :: ((255 :: 255 :: 255 :: 255 :: 255 :: 255 ::
          pack32 (X &&& 0xFFFFFFFF)) ++ P) := by
      simp
    rw [he, parse_simple]
    · have h0 : (0:Nat) &&& 127 = 0 := rfl
      rw [h0]
    · simp [pack32]
    · exact hP
  · simp [advanceStream, chunk_size, and_mask16, and_mask32]

/-- Witness for C5 at SSRC 305419896 and payload [1, 2, 3]. -/
theorem claim5_witness :
    unpack16 (create_rtp_packet 65535 4294967295 305419896 [1, 2, 3] 0) 2 = 65535 ∧
    unpack32 (create_rtp_packet 65535 4294967295 305419896 [1, 2, 3] 0) 4 = 4294967295 ∧
    unpack32 (create_rtp_packet 65535 4294967295 305419896 [1, 2, 3] 0) 8 = 305419896 ∧
    parse_rtp_header_and_payload (create_rtp_packet 65535 4294967295 305419896 [1, 2, 3] 0) =
      (0, some [1, 2, 3]) ∧
    advanceStream 65535 4294967295 = ((65535 + 1) % 65536, (4294967295 + 160) % 4294967296) :=
  claim5_rtp_roundtrip_wrap 305419896 [1, 2, 3] (by decide) (by decide)

/-- The byte just after a prefix `l` is read back exactly. -/
lemma byteAt_append_length (l : List Nat) (a : Nat) (t : List Nat) :
    byteAt (l ++ a :: t) l.length = a := by
  induction l with
  | nil => rfl
  | cons x xs ih => simpa [byteAt] using ih

/-- C6: a packet whose first byte is 0xA2 (version 2, padding set, no
extension, 2 CSRC entries), with a 12-byte base header, 8 CSRC bytes, a
nonempty payload and 4 trailing padding bytes whose final byte is 4,
parses to exactly the payload between byte offset 20 and the padding. -/
theorem claim6_rtp_csrc_padding (b2 : Nat) (mid payload pad3 : List Nat)
    (hmid : mid.length = 18) (hpad3 : pad3.length = 3) (hpay : payload ≠ []) :
    parse_rtp_header_and_payload
        (0xA2 :: b2 :: (mid ++ payload ++ pad3 ++ [4])) =
      (b2 &&& 0x7F, some payload) := by
  have hplen : 0 < payload.length := List.length_pos.mpr hpay
  have hlen : (0xA2 :: b2 :: (mid ++ payload ++ pad3 ++ [4])).length = 24 + payload.length := by
    simp [hmid, hpad3]; omega
  have hcc : (0xA2 : Nat) &&& 0x0F = 2 := by decide
  have hext : ((0xA2 : Nat) >>> 4) &&& 0x01 = 0 := by decide
  have hpadbit : ((0xA2 : Nat) >>> 5) &&& 0x01 = 1 := by decide
  have hlast : byteAt (0xA2 :: b2 :: (mid ++ payload ++ pad3 ++ [4]))
      (24 + payload.length - 1) = 4 := by
    have he : (0xA2 :: b2 :: (mid ++ payload ++ pad3 ++ [4])) =
        (0xA2 :: b2 :: (mid ++ payload ++ pad3)) ++ 4 :: [] := by simp
    have hfl : (0xA2 :: b2 :: (mid ++ payload ++ pad3)).length = 23 + payload.length := by
      simp [hmid, hpad3]; omega
    have hidx : 24 + payload.length - 1 = (0xA2 :: b2 :: (mid ++ payload ++ pad3)).length := by
      rw [hfl]; omega
    rw [he, hidx, byteAt_append_length]
  simp only [parse_rtp_header_and_payload, rtpFinish, byteAt_cons_zero, byteAt_cons_succ,
    hcc, hext, hpadbit, hlen, hlast]
  rw [if_neg (show ¬(24 + payload.length < 12) from by omega)]
  rw [if_neg (show ¬(24 + payload.length < 12 + 2 * 4) from by omega)]
  rw [if_neg (show ¬((0:Nat) ≠ 0) from by simp)]
  rw [if_pos (show (1:Nat) ≠ 0 from by simp)]
  rw [if_pos (show 4 < 24 + payload.length - (12 + 2 * 4) from by omega)]
  rw [if_neg (show ¬(12 + 2 * 4 ≥ 24 + payload.length - 4) from by omega)]
  have hdrop : (0xA2 :: b2 :: (mid ++ payload ++ pad3 ++ [4])).drop (12 + 2 * 4) =
      payload ++ pad3 ++ [4] := by
    have he : (0xA2 :: b2 :: (mid ++ payload ++ pad3 ++ [4])) =
        (0xA2 :: b2 :: mid) ++ (payload ++ pad3 ++ [4]) := by simp
    rw [he]
    have h20 : (0xA2 :: b2 :: mid).length = 12 + 2 * 4 := by simp [hmid]
    rw [← h20, List.drop_left]
  rw [hdrop]
  have htake : 24 + payload.length - 4 - (12 + 2 * 4) = payload.length := by omega
  rw [htake]
  have he2 : payload ++ pad3 ++ [4] = payload ++ (pad3 ++ [4]) := by simp
  rw [he2, List.take_left]

/-- Witness for C6 on a concrete packet: 2 CSRC entries, 4 padding bytes
ending in 4, payload [9, 9]. -/
theorem claim6_witness :
    parse_rtp_header_and_payload
        (0xA2 :: 0 :: ([0, 0, 0, 0, 0, 0, 0, 0, 0, 0, 0, 0, 0, 0, 0, 0, 0, 0] ++
          [9, 9] ++ [0, 0, 0] ++ [4])) = (0, some [9, 9]) := by
  rw [claim6_rtp_csrc_padding 0 _ _ _ (by decide) (by decide) (by decide)]
  rfl

/-- C10: the RTP parser is total: it is a function on arbitrary byte
strings (so it returns a (payload type, optional payload) pair on every
input without raising); every input shorter than 12 bytes yields
(0, none); on longer inputs the returned payload type is always byte 1
masked to 7 bits, and a declared CSRC list or extension header that
extends past the end of the packet yields (payload type, none). -/
theorem claim10_rtp_parser_total (p : List Nat) :
    (p.length < 12 → parse_rtp_header_and_payload p = (0, none)) ∧
    (12 ≤ p.length →
      (parse_rtp_header_and_payload p).1 = byteAt p 1 &&& 0x7F ∧
      (p.length < 12 + (byteAt p 0 &&& 0x0F) * 4 →
        parse_rtp_header_and_payload p = (byteAt p 1 &&& 0x7F, none)) ∧
      ((byteAt p 0 >>> 4) &&& 0x01 ≠ 0 →
        12 + (byteAt p 0 &&& 0x0F) * 4 ≤ p.length →
        p.length < 12 + (byteAt p 0 &&& 0x0F) * 4 + 4 →
        parse_rtp_header_and_payload p = (byteAt p 1 &&& 0x7F, none)) ∧
      ((byteAt p 0 >>> 4) &&& 0x01 ≠ 0 →
        12 + (byteAt p 0 &&& 0x0F) * 4 + 4 ≤ p.length →
        p.length < 12 + (byteAt p 0 &&& 0x0F) * 4 + 4 +
          unpack16 p (12 + (byteAt p 0 &&& 0x0F) * 4 + 2) * 4 →
        parse_rtp_header_and_payload p = (byteAt p 1 &&& 0x7F, none))) := by
  constructor
  · intro h
    simp only [parse_rtp_header_and_payload]
    rw [if_pos h]
  · intro h12
    refine ⟨?_, ?_, ?_, ?_⟩
    · simp only [parse_rtp_header_and_payload, rtpFinish]
      rw [if_neg (by omega)]
      repeat' split
      all_goals rfl
    · intro h
      simp only [parse_rtp_header_and_payload]
      rw [if_neg (by omega), if_pos h]
    · intro hext hcs htr
      simp only [parse_rtp_header_and_payload]
      rw [if_neg (by omega), if_neg (by omega), if_pos hext, if_pos htr]
    · intro hext hhdr htr
      simp only [parse_rtp_header_and_payload]
      rw [if_neg (by omega), if_neg (by omega), if_pos hext,
        if_neg (by omega), if_pos htr]

/-- Witness for C10: a 3-byte datagram parses to (0, none), and a 12-byte
packet advertising one CSRC entry (so 16 bytes needed) parses to
(payload type, none). -/
theorem claim10_witness :
    parse_rtp_header_and_payload [1, 2, 3] = (0, none) ∧
    parse_rtp_header_and_payload [0x81, 0, 0, 0, 0, 0, 0, 0, 0, 0, 0, 0] = (0, none) :=
  ⟨(claim10_rtp_parser_total [1, 2, 3]).1 (by decide),
   ((claim10_rtp_parser_total [0x81, 0, 0, 0, 0, 0, 0, 0, 0, 0, 0, 0]).2 (by decide)).2.1
     (by decide)⟩

/- ===================== codec selection ===================== -/

/-- Incoming-INVITE codec choice (`_handle_incoming_invite_with_media`):
`chosen_pt = 0 if 0 in offered_pts else (8 if 8 in offered_pts else 0)`. -/
def chosen_pt_incoming (offered_pts : List Nat) : Nat :=
  if 0 ∈ offered_pts then 0 else if 8 ∈ offered_pts then 8 else 0

/-- Outgoing-call answer parsing (`_parse_sdp_response`): the stored
`remote_pt` is set to 0 when 0 is offered, else to 8 when 8 is offered,
and otherwise (empty or unsupported-only list) left as it was.  A fresh
outgoing call has no `remote_pt` key, modelled as `none`. -/
def update_remote_pt (prior : Option Nat) (pts : List Nat) : Option Nat :=
  if pts ≠ [] then
    (if 0 ∈ pts then some 0 else if 8 ∈ pts then some 8 else prior)
  else prior

/-- Every consumer reads the stored payload type as
`call_info.get('remote_pt', 0)`: absent means PCMU (0). -/
def effective_remote_pt (stored : Option Nat) : Nat := stored.getD 0

/-- The selection policy as the specification words it: PCMU (0) when 0
is offered, else PCMA (8) when 8 is offered, else default PCMU (0). -/
def spec_codec_choice (pts : List Nat) : Nat :=
  if 0 ∈ pts then 0 else if 8 ∈ pts then 8 else 0

/-- C7: for every parsed payload-type list, both the incoming-INVITE
answer path and the outgoing-call 200 OK answer-parsing path (starting
from a fresh call with no stored payload type) select exactly the
specification's codec choice: 0 if offered, else 8 if offered, else 0. -/
theorem claim7_codec_selection (pts : List Nat) :
    chosen_pt_incoming pts = spec_codec_choice pts ∧
    effective_remote_pt (update_remote_pt none pts) = spec_codec_choice pts := by
  constructor
  · rfl
  · unfold effective_remote_pt update_remote_pt spec_codec_choice
    by_cases h0 : 0 ∈ pts
    · have hne : pts ≠ [] := by rintro rfl; simp at h0
      simp [h0, hne]
    · by_cases h8 : 8 ∈ pts
      · have hne : pts ≠ [] := by rintro rfl; simp at h8
        simp [h0, h8, hne]
      · by_cases hne : pts = []
        · simp [hne]
        · simp [h0, h8, hne]

/- ===================== registration retry ===================== -/

/-- Observable actions of `register_account`'s `register_thread`. -/
inductive RegEvent where
  | attempt (n : Nat)
  | sleep (seconds : Nat)
  | report (registered : Bool) (code : Nat)
  deriving DecidableEq, Repr

/-- The retry loop of `register_thread` (`for attempt in range(3)`), with
the outcome of `_perform_registration` on attempt `n` given by
`oracle n`.  Returns the events of the loop and the final `success`.
The fuel is `3 - attempt`, encoding the `range(3)` bound. -/
def regFor (oracle : Nat → Bool) : Nat → Nat → List RegEvent × Bool
  | 0, _ => ([], false)
  | fuel + 1, attempt =>
    if oracle attempt then ([RegEvent.attempt attempt], true)
    else if attempt < 3 - 1 then
      let rest := regFor oracle fuel (attempt + 1)
      (RegEvent.attempt attempt :: RegEvent.sleep 3 :: rest.1, rest.2)
    else ([RegEvent.attempt attempt], false)

/-- Embedding of `register_account`'s `register_thread`: up to 3 attempts, a 3-second
sleep between consecutive attempts, then one
`onRegistrationStateChanged` report: `(True, 200)` on success,
`(False, 0)` when every attempt failed. -/
def register_thread (oracle : Nat → Bool) : List RegEvent :=
  let r := regFor oracle 3 0
  r.1 ++ [RegEvent.report r.2 (if r.2 then 200 else 0)]

/-- Whether an event is a registration attempt. -/
def isAttempt : RegEvent → Bool
  | RegEvent.attempt _ => true
  | _ => false

/-- C8: when every attempt fails, `register_account` performs exactly 3
attempts, sleeps 3 seconds between consecutive attempts, and finally
reports the account unregistered with status code 0; the trace is
exactly attempt 0, sleep 3, attempt 1, sleep 3, attempt 2, report
(false, 0). -/
theorem claim8_register_retry (oracle : Nat → Bool)
    (hfail : ∀ n, oracle n = false) :
    register_thread oracle =
      [RegEvent.attempt 0, RegEvent.sleep 3, RegEvent.attempt 1, RegEvent.sleep 3,
       RegEvent.attempt 2, RegEvent.report false 0] ∧
    ((register_thread oracle).filter isAttempt).length = 3 := by
  have h : register_thread oracle =
      [RegEvent.attempt 0, RegEvent.sleep 3, RegEvent.attempt 1, RegEvent.sleep 3,
       RegEvent.attempt 2, RegEvent.report false 0] := by
    unfold register_thread
    simp [regFor, hfail 0, hfail 1, hfail 2]
  refine ⟨h, ?_⟩
  rw [h]
  rfl

/-- Witness for C8: a server that never responds (all attempts fail). -/
theorem claim8_witness :
    register_thread (fun _ => false) =
      [RegEvent.attempt 0, RegEvent.sleep 3, RegEvent.attempt 1, RegEvent.sleep 3,
       RegEvent.attempt 2, RegEvent.report false 0] ∧
    ((register_thread (fun _ => false)).filter isAttempt).length = 3 :=
  claim8_register_retry (fun _ => false) (fun _ => rfl)

/- ============== deferred-call coordinator (`on_state` in sip_dialer.py) ============== -/

/-- One entry of `self._deferred_calls` (a dict keyed by call id that
preserves insertion order, oldest first).  The fields `call_info`,
`caller_display` and `speech_detection_mode` are carried by the source
dict but never read by the CONNECTED-event logic, so they are omitted. -/
structure DeferredInfo where
  account_id : Nat
  received_ts : Nat
  answered : Bool
  deriving DecidableEq, Repr

/-- The `norm` helper inside `on_state` (`n.lstrip('+').lstrip('0')`): strip all
leading '+' characters, then all leading '0' characters. -/
def normNumber (n : String) : String :=
  String.mk ((n.data.dropWhile (fun c => c = '+')).dropWhile (fun c => c = '0'))

/-- The pending test used throughout `on_state`:
`info.get('account_id') == account_id and not info.get('answered')`. -/
def pendingPred (account_id : Nat) (e : Nat × DeferredInfo) : Bool :=
  decide (e.2.account_id = account_id) && !e.2.answered

/-- Whether the matching pass answers entry `e`: it must be pending for
the account and NOT skipped; a call is skipped exactly when the event
number and the call's SIP number are both present and their normalized
forms differ (`if number and sip_number and not number_match: continue`). -/
def answersPred (sipNumber : Nat → Option String) (account_id : Nat)
    (number : Option String) (e : Nat × DeferredInfo) : Bool :=
  pendingPred account_id e &&
    !(match number, sipNumber e.1 with
      | some n, some s => decide (normNumber n ≠ normNumber s)
      | _, _ => false)

/-- The number-matching pass of `on_state` for a CONNECTED event: iterate
the deferred entries in order; for each not-yet-answered call of the
account that is not skipped by a number mismatch, attempt the answer
(`_attempt_sip_answer`, outcome `answerOk`) and mark `answered` on
success.  Returns the updated entries and the answered ids in order. -/
def matchPass (sipNumber : Nat → Option String) (answerOk : Nat → Bool)
    (account_id : Nat) (number : Option String) :
    List (Nat × DeferredInfo) → List (Nat × DeferredInfo) × List Nat
  | [] => ([], [])
  | (cid, info) :: rest =>
    let r := matchPass sipNumber answerOk account_id number rest
    if info.account_id ≠ account_id ∨ info.answered then
      ((cid, info) :: r.1, r.2)
    else
      let skip : Bool := match number, sipNumber cid with
        | some n, some s => decide (normNumber n ≠ normNumber s)
        | _, _ => false
      if skip then ((cid, info) :: r.1, r.2)
      else if answerOk cid then
        ((cid, { info with answered := true }) :: r.1, cid :: r.2)
      else ((cid, info) :: r.1, r.2)

/-- The fallback of `on_state`: walk the deferred entries in order and
answer the first pending call of the account whose attempt succeeds
(the loop breaks after the first success). -/
def fallbackPass (answerOk : Nat → Bool) (account_id : Nat) :
    List (Nat × DeferredInfo) → List (Nat × DeferredInfo) × Option Nat
  | [] => ([], none)
  | (cid, info) :: rest =>
    if pendingPred account_id (cid, info) then
      if answerOk cid then ((cid, { info with answered := true }) :: rest, some cid)
      else
        let r := fallbackPass answerOk account_id rest
        ((cid, info) :: r.1, r.2)
    else
      let r := fallbackPass answerOk account_id rest
      ((cid, info) :: r.1, r.2)

/-- Embedding of `on_state` for a CONNECTED event (state normalized to ONGOING):
compute the pending calls of the account, run the number-matching pass,
and if it answered nothing while calls are pending, run the fallback.
Returns the updated deferred entries and the ids answered by the event. -/
def onConnected (sipNumber : Nat → Option String) (answerOk : Nat → Bool)
    (deferred : List (Nat × DeferredInfo)) (account_id : Nat)
    (number : Option String) : List (Nat × DeferredInfo) × List Nat :=
  let pending_calls := (deferred.filter (pendingPred account_id)).map Prod.fst
  let m := matchPass sipNumber answerOk account_id number deferred
  if m.2 = [] ∧ pending_calls ≠ [] then
    let f := fallbackPass answerOk account_id m.1
    (f.1, match f.2 with | some c => [c] | none => [])
  else m

/-- The oldest pending deferred call of an account (first in insertion
order), if any. -/
def firstPendingId (deferred : List (Nat × DeferredInfo)) (account_id : Nat) : Option Nat :=
  (deferred.find? (pendingPred account_id)).map Prod.fst

/-- When every answer attempt succeeds, the matching pass marks exactly
the entries satisfying `answersPred` and reports their ids in order. -/
lemma matchPass_spec (sipNumber : Nat → Option String) (answerOk : Nat → Bool)
    (aid : Nat) (number : Option String) (hok : ∀ c, answerOk c = true)
    (l : List (Nat × DeferredInfo)) :
    matchPass sipNumber answerOk aid number l =
      (l.map (fun e => if answersPred sipNumber aid number e then
          (e.1, { e.2 with answered := true }) else e),
       (l.filter (answersPred sipNumber aid number)).map Prod.fst) := by
  induction l with
  | nil => rfl
  | cons e rest ih =>
    obtain ⟨cid, info⟩ := e
    by_cases hacc : info.account_id ≠ aid ∨ info.answered = true
    · have hap : answersPred sipNumber aid number (cid, info) = false := by
        rcases hacc with h | h
        · simp [answersPred, pendingPred, h]
        · simp [answersPred, pendingPred, h]
      simp [matchPass, ih, hacc, hap]
    · have hpend : pendingPred aid (cid, info) = true := by
        push_neg at hacc
        simp [pendingPred, hacc.1, hacc.2]
      rcases hnum : number with _ | n
      · subst hnum
        have hap : answersPred sipNumber aid none (cid, info) = true := by
          rcases hsip : sipNumber cid with _ | s <;> simp [answersPred, hpend, hsip]
        rcases hsip : sipNumber cid with _ | s <;>
          simp [matchPass, ih, hacc, hap, hsip, hok cid]
      · subst hnum
        rcases hsip : sipNumber cid with _ | s
        · have hap : answersPred sipNumber aid (some n) (cid, info) = true := by
            simp [answersPred, hpend, hsip]
          simp [matchPass, ih, hacc, hap, hsip, hok cid]
        · by_cases hmm : normNumber n = normNumber s
          · have hap : answersPred sipNumber aid (some n) (cid, info) = true := by
              simp [answersPred, hpend, hsip, hmm]
            simp [matchPass, ih, hacc, hap, hsip, hok cid, hmm]
          · have hap : answersPred sipNumber aid (some n) (cid, info) = false := by
              simp [answersPred, hpend, hsip, hmm]
            simp [matchPass, ih, hacc, hap, hsip, hmm]

/-- With no event number, nothing is skipped: the matching pass answers
every pending call of the account. -/
lemma answersPred_none (sipNumber : Nat → Option String) (aid : Nat)
    (e : Nat × DeferredInfo) :
    answersPred sipNumber aid none e = pendingPred aid e := by
  rcases hsip : sipNumber e.1 with _ | s <;> simp [answersPred, hsip]

/-- When every attempt succeeds, the fallback answers exactly the first
pending entry of the account (ids assumed unique, as in a dict). -/
lemma fallbackPass_spec (answerOk : Nat → Bool) (aid : Nat)
    (hok : ∀ c, answerOk c = true) :
    ∀ (l : List (Nat × DeferredInfo)), (l.map Prod.fst).Nodup →
      ∀ c0 info0, l.find? (pendingPred aid) = some (c0, info0) →
      fallbackPass answerOk aid l =
        (l.map (fun e => if e.1 = c0 then (e.1, { e.2 with answered := true }) else e),
         some c0) := by
  intro l
  induction l with
  | nil => intro _ c0 info0 h; simp at h
  | cons e rest ih =>
    obtain ⟨cid, info⟩ := e
    intro hnd c0 info0 hfind
    have hnd1 : cid ∉ rest.map Prod.fst := by
      simp only [List.map_cons, List.nodup_cons] at hnd
      exact hnd.1
    have hnd2 : (rest.map Prod.fst).Nodup := by
      simp only [List.map_cons, List.nodup_cons] at hnd
      exact hnd.2
    by_cases hp : pendingPred aid (cid, info) = true
    · rw [List.find?_cons_of_pos _ hp] at hfind
      obtain ⟨rfl, rfl⟩ : c0 = cid ∧ info0 = info := by
        constructor <;> injection hfind with h <;> cases h <;> rfl
      have hrest : rest.map (fun e => if e.1 = c0 then
          (e.1, { e.2 with answered := true }) else e) = rest := by
        trans rest.map id
        · apply List.map_congr_left
          intro e he
          have : e.1 ≠ c0 := by
            intro hcontra
            exact hnd1 (hcontra ▸ List.mem_map_of_mem Prod.fst he)
          simp [this]
        · exact List.map_id rest
      simp [fallbackPass, hp, hok c0, hrest]
    · rw [List.find?_cons_of_neg _ hp] at hfind
      have hc0mem : c0 ∈ rest.map Prod.fst := by
        have := List.mem_of_find?_eq_some hfind
        exact List.mem_map_of_mem Prod.fst this
      have hne : cid ≠ c0 := by
        intro hcontra
        exact hnd1 (hcontra ▸ hc0mem)
      simp [fallbackPass, hp, ih hnd2 c0 info0 hfind, hne]

/-- A pending deferred call whose SIP caller number matches the event's
number after normalization (the claim's matching criterion). -/
def pendingMatches (sipNumber : Nat → Option String) (account_id : Nat)
    (number : String) (e : Nat × DeferredInfo) : Bool :=
  pendingPred account_id e &&
    (match sipNumber e.1 with
     | some s => decide (normNumber number = normNumber s)
     | none => false)

/-- C1: on a CONNECTED event carrying a number, when every pending
deferred call of the account has a SIP caller number and at least one of
them matches the event's number after normalization (strip leading '+'
and '0'), the coordinator answers exactly the matching calls: matched
entries are marked answered and reported, all other entries are left
unchanged (in particular a pending call with a different number stays
pending). -/
theorem claim1_deferred_number_match (sipNumber : Nat → Option String)
    (answerOk : Nat → Bool) (deferred : List (Nat × DeferredInfo))
    (aid : Nat) (N : String)
    (hok : ∀ c, answerOk c = true)
    (hnum : ∀ e ∈ deferred, pendingPred aid e = true → (sipNumber e.1).isSome)
    (hmatch : ∃ e ∈ deferred, pendingMatches sipNumber aid N e = true) :
    onConnected sipNumber answerOk deferred aid (some N) =
      (deferred.map (fun e => if pendingMatches sipNumber aid N e then
          (e.1, { e.2 with answered := true }) else e),
       (deferred.filter (pendingMatches sipNumber aid N)).map Prod.fst) := by
  have hcong : ∀ e ∈ deferred,
      answersPred sipNumber aid (some N) e = pendingMatches sipNumber aid N e := by
    intro e he
    by_cases hp : pendingPred aid e = true
    · have hs := hnum e he hp
      rcases hsip : sipNumber e.1 with _ | s
      · rw [hsip] at hs; simp at hs
      · by_cases hmm : normNumber N = normNumber s
        · simp [answersPred, pendingMatches, hp, hsip, hmm]
        · simp [answersPred, pendingMatches, hp, hsip, hmm]
    · have hp' : pendingPred aid e = false := by
        cases h : pendingPred aid e
        · rfl
        · exact absurd h hp
      simp [answersPred, pendingMatches, hp']
  have hfilter : deferred.filter (answersPred sipNumber aid (some N)) =
      deferred.filter (pendingMatches sipNumber aid N) := by
    apply List.filter_congr
    intro e he
    exact hcong e he
  have hmap : deferred.map (fun e => if answersPred sipNumber aid (some N) e then
      (e.1, { e.2 with answered := true }) else e) =
      deferred.map (fun e => if pendingMatches sipNumber aid N e then
      (e.1, { e.2 with answered := true }) else e) := by
    apply List.map_congr_left
    intro e he
    rw [hcong e he]
  have hne : (deferred.filter (pendingMatches sipNumber aid N)).map Prod.fst ≠ [] := by
    obtain ⟨e, he, hpm⟩ := hmatch
    have : e ∈ deferred.filter (pendingMatches sipNumber aid N) :=
      List.mem_filter.mpr ⟨he, hpm⟩
    intro hcontra
    have := List.mem_map_of_mem Prod.fst this
    rw [hcontra] at this
    simp at this
  unfold onConnected
  rw [matchPass_spec sipNumber answerOk aid (some N) hok deferred]
  simp only [hfilter, hmap]
  rw [if_neg]
  rintro ⟨h1, _⟩
  exact hne h1

/-- The two-call scenario of C1: account 0, caller numbers
"94769804761" and "94760000000". -/
def c1SipNumber : Nat → Option String := fun cid =>
  if cid = 1 then some "94769804761"
  else if cid = 2 then some "94760000000" else none

/-- The deferred-call table of the C1 scenario (both calls pending). -/
def c1Deferred : List (Nat × DeferredInfo) :=
  [(1, ⟨0, 100, false⟩), (2, ⟨0, 101, false⟩)]

/-- Witness for C1: event number "+94769804761" answers exactly call 1;
call 2 is left pending. -/
theorem claim1_witness :
    onConnected c1SipNumber (fun _ => true) c1Deferred 0 (some "+94769804761") =
      ([(1, ⟨0, 100, true⟩), (2, ⟨0, 101, false⟩)], [1]) := by
  rw [claim1_deferred_number_match c1SipNumber (fun _ => true) c1Deferred 0
    "+94769804761" (fun _ => rfl) (by decide) (by decide)]
  rfl

/-- The two-call scenario refuting C2: account 0, two pending calls whose
numbers both differ from the event's number. -/
def c2SipNumber : Nat → Option String := fun cid =>
  if cid = 1 then some "94760000000"
  else if cid = 2 then some "94761111111" else none

/-- The deferred-call table of the C2 scenario (both calls pending). -/
def c2Deferred : List (Nat × DeferredInfo) :=
  [(1, ⟨0, 100, false⟩), (2, ⟨0, 101, false⟩)]

/-- Counterexample to C2 as stated: (i) after a first CONNECTED event
whose number matches neither call answers call 1 by fallback, a second
identical CONNECTED event for the same account answers call 2 — so a
later CONNECTED event for an account with an already-answered deferred
call does answer a further call, and the fallback fires more than once
per account; (ii) a CONNECTED event carrying no number answers BOTH
pending calls in the matching pass, not the single oldest one. -/
theorem claim2_counterexample :
    (onConnected c2SipNumber (fun _ => true) c2Deferred 0 (some "+94769804761")).2 = [1] ∧
    (onConnected c2SipNumber (fun _ => true)
      (onConnected c2SipNumber (fun _ => true) c2Deferred 0 (some "+94769804761")).1
      0 (some "+94769804761")).2 = [2] ∧
    (onConnected c2SipNumber (fun _ => true) c2Deferred 0 none).2 = [1, 2] := by
  decide

/-- C2 (amended): with call ids unique, (a) if the event carries a number,
every pending call of the account has a SIP number whose normalized form
differs from the event's, and at least one call is pending, then the
fallback answers exactly the single oldest pending call of the account in
that event (later events may answer calls still pending — there is no
once-per-account latch); (b) if the event carries no number, the matching
pass itself answers every pending call of the account. -/
theorem claim2_amended_fallback (sipNumber : Nat → Option String)
    (answerOk : Nat → Bool) (deferred : List (Nat × DeferredInfo)) (aid : Nat)
    (hok : ∀ c, answerOk c = true) :
    (∀ (N : String) (c0 : Nat),
      (deferred.map Prod.fst).Nodup →
      (∀ e ∈ deferred, pendingPred aid e = true →
        ∃ s, sipNumber e.1 = some s ∧ normNumber N ≠ normNumber s) →
      firstPendingId deferred aid = some c0 →
      onConnected sipNumber answerOk deferred aid (some N) =
        (deferred.map (fun e => if e.1 = c0 then
            (e.1, { e.2 with answered := true }) else e),
         [c0])) ∧
    (onConnected sipNumber answerOk deferred aid none =
      (deferred.map (fun e => if pendingPred aid e then
          (e.1, { e.2 with answered := true }) else e),
       (deferred.filter (pendingPred aid)).map Prod.fst)) := by
  constructor
  · intro N c0 hnd hmis hfirst
    have hap : ∀ e ∈ deferred, answersPred sipNumber aid (some N) e = false := by
      intro e he
      by_cases hp : pendingPred aid e = true
      · obtain ⟨s, hs, hne⟩ := hmis e he hp
        simp [answersPred, hp, hs, hne]
      · have hp' : pendingPred aid e = false := by
          cases h : pendingPred aid e
          · rfl
          · exact absurd h hp
        simp [answersPred, hp']
    have hfilter : deferred.filter (answersPred sipNumber aid (some N)) = [] := by
      rw [List.filter_eq_nil_iff]
      intro e he
      rw [hap e he]
      simp
    have hmapid : deferred.map (fun e => if answersPred sipNumber aid (some N) e then
        (e.1, { e.2 with answered := true }) else e) = deferred := by
      trans deferred.map id
      · apply List.map_congr_left
        intro e he
        simp [hap e he]
      · exact List.map_id deferred
    obtain ⟨info0, hfind⟩ : ∃ info0,
        deferred.find? (pendingPred aid) = some (c0, info0) := by
      unfold firstPendingId at hfirst
      rcases h : deferred.find? (pendingPred aid) with _ | ⟨c0', info0⟩
      · rw [h] at hfirst; simp at hfirst
      · rw [h] at hfirst
        simp at hfirst
        subst hfirst
        exact ⟨info0, rfl⟩
    have hpendne : (deferred.filter (pendingPred aid)).map Prod.fst ≠ [] := by
      have hmem := List.mem_of_find?_eq_some hfind
      have hpp := List.find?_some hfind
      have : (c0, info0) ∈ deferred.filter (pendingPred aid) :=
        List.mem_filter.mpr ⟨hmem, hpp⟩
      intro hcontra
      have := List.mem_map_of_mem Prod.fst this
      rw [hcontra] at this
      simp at this
    unfold onConnected
    rw [matchPass_spec sipNumber answerOk aid (some N) hok deferred]
    simp only [hfilter, hmapid, List.map_nil]
    rw [if_pos (show _ ∧ _ from ⟨by trivial, hpendne⟩)]
    rw [fallbackPass_spec answerOk aid hok deferred hnd c0 info0 hfind]
  · have hcong : ∀ e ∈ deferred,
        answersPred sipNumber aid none e = pendingPred aid e := by
      intro e _
      exact answersPred_none sipNumber aid e
    have hfilter : deferred.filter (answersPred sipNumber aid none) =
        deferred.filter (pendingPred aid) :=
      List.filter_congr hcong
    have hmap : deferred.map (fun e => if answersPred sipNumber aid none e then
        (e.1, { e.2 with answered := true }) else e) =
        deferred.map (fun e => if pendingPred aid e then
        (e.1, { e.2 with answered := true }) else e) := by
      apply List.map_congr_left
      intro e he
      rw [hcong e he]
    unfold onConnected
    rw [matchPass_spec sipNumber answerOk aid none hok deferred]
    simp only [hfilter, hmap]
    rw [if_neg]
    rintro ⟨h1, h2⟩
    exact h2 h1

/-- Witness for C2 (amended) on the concrete scenario: the mismatch event
fallback-answers only the oldest call 1, and a no-number event answers
both pending calls in the matching pass. -/
theorem claim2_witness :
    onConnected c2SipNumber (fun _ => true) c2Deferred 0 (some "+94769804761") =
      ([(1, ⟨0, 100, true⟩), (2, ⟨0, 101, false⟩)], [1]) ∧
    onConnected c2SipNumber (fun _ => true) c2Deferred 0 none =
      ([(1, ⟨0, 100, true⟩), (2, ⟨0, 101, true⟩)], [1, 2]) := by
  have h := claim2_amended_fallback c2SipNumber (fun _ => true) c2Deferred 0 (fun _ => rfl)
  constructor
  · rw [h.1 "+94769804761" 1 (by decide) ?_ (by decide)]
    · rfl
    · intro e he hp
      simp only [c2Deferred, List.mem_cons, List.not_mem_nil, or_false] at he
      rcases he with rfl | rfl
      · exact ⟨"94760000000", rfl, by decide⟩
      · exact ⟨"94761111111", rfl, by decide⟩
  · rw [h.2]
    rfl

/- ============ answer_deferred_call (enhanced_sip_manager.py) ============ -/

/-- Whether `sub` is an initial run of `s`
(Python's startswith, used to model substring search). -/
def charsStart : List Char → List Char → Bool
  | [], _ => true
  | _ :: _, [] => false
  | c :: cs, d :: ds => c == d && charsStart cs ds

/-- Python substring test `sub in s` on character lists. -/
def charsContain (sub : List Char) : List Char → Bool
  | [] => charsStart sub []
  | s@(_ :: t) => charsStart sub s || charsContain sub t

/-- Python's `sub in s` on strings. -/
def strContains (s sub : String) : Bool := charsContain sub.data s.data

/-- Structural core of string replacement; the fuel (the length of the
remaining text) bounds the recursion. -/
def replaceGo (old new : List Char) : Nat → List Char → List Char
  | 0, s => s
  | _ + 1, [] => []
  | fuel + 1, s@(c :: t) =>
    if old ≠ [] ∧ charsStart old s = true then
      new ++ replaceGo old new fuel (s.drop old.length)
    else c :: replaceGo old new fuel t

/-- Python's `s.replace(old, new)` for a nonempty pattern: replace every
non-overlapping occurrence left to right (the only pattern used by the
source is ':5060>', never empty). -/
def strReplace (s old new : String) : String :=
  String.mk (replaceGo old.data new.data s.data.length s.data)

/-- The fields of an `active_calls` entry read by `answer_deferred_call`.
Missing dict keys are modelled by `none` (or `false` for the flag reads
`call_info.get('incoming')` / `call_info.get('deferred_answer')`);
`remote_pt`/`remote_codec` keep their read defaults 0 / "PCMU" at the
use site, mirroring `call_info.get('remote_pt', 0)`. -/
structure CallInfo where
  incoming : Bool
  deferred_answer : Bool
  state : String
  raw_invite : Option String
  sip_addr : Option (String × Nat)
  account_id : Option Nat
  rtp_port : Nat
  remote_pt : Option Nat
  remote_codec : Option String
  deriving DecidableEq, Repr

/-- The manager state touched by `answer_deferred_call`: the call table
and the per-account UDP sockets (modelled by their bound local port). -/
structure SipMgrState where
  active_calls : List (Nat × CallInfo)
  sockets : List (Nat × Nat)
  deriving DecidableEq, Repr

/-- Embedding of `EnhancedSipManager.answer_deferred_call(internal_id)`: send the
deferred `200 OK` (built by `_create_200ok_with_sdp`, abstracted as the
argument `create200ok`) for a RINGING, deferred, incoming call and move
it to ANSWERED; any failed precondition returns `False` before any state
change or send.  The result is (return value, new state, sent datagrams
as (message, address) pairs). -/
def answer_deferred_call (create200ok : String → Nat → Nat → String → String)
    (mgr : SipMgrState) (internal_id : Nat) :
    Bool × SipMgrState × List (String × (String × Nat)) :=
  match mgr.active_calls.lookup internal_id with
  | none => (false, mgr, [])
  | some ci =>
    if ¬ci.incoming ∨ ¬ci.deferred_answer then (false, mgr, [])
    else if ci.state ≠ "RINGING" then (false, mgr, [])
    else
      match ci.raw_invite, ci.sip_addr, ci.account_id with
      | some raw, some addr, some account_id =>
        if raw.isEmpty then (false, mgr, [])
        else
          let ok_response := create200ok raw ci.rtp_port (ci.remote_pt.getD 0)
            (ci.remote_codec.getD "PCMU")
          match mgr.sockets.lookup account_id with
          | none => (false, mgr, [])
          | some bound_port =>
            let ok_response :=
              if strContains ok_response (":" ++ toString bound_port ++ ">") then
                ok_response
              else strReplace ok_response ":5060>" (":" ++ toString bound_port ++ ">")
            let new_calls := mgr.active_calls.map (fun e =>
              if e.1 = internal_id then
                (e.1, { e.2 with deferred_answer := false, state := "ANSWERED" })
              else e)
            (true, { mgr with active_calls := new_calls }, [(ok_response, addr)])
      | _, _, _ => (false, mgr, [])

/-- Looking up a key after updating exactly that key's entry. -/
lemma lookup_map_update (l : List (Nat × CallInfo)) (k : Nat)
    (f : CallInfo → CallInfo) :
    (l.map (fun e => if e.1 = k then (e.1, f e.2) else e)).lookup k =
      (l.lookup k).map f := by
  induction l with
  | nil => rfl
  | cons e rest ih =>
    obtain ⟨k', v⟩ := e
    by_cases h : k' = k
    · subst h
      simp [List.lookup_cons, ih]
    · have hb : (k == k') = false := by simp [Ne.symm h]
      simp [List.lookup_cons, h, hb, ih]

/-- C3: `answer_deferred_call` sends the stored 200 OK and moves the call
to ANSWERED only when the call exists, is incoming, is marked deferred,
and is RINGING; every call that is missing, not incoming, not deferred
or not RINGING (in particular one already answered) produces a no-op
that returns false, sends nothing and leaves the state unchanged; on
success exactly one 200 OK is sent and the call becomes ANSWERED, and a
second invocation is a no-op sending no duplicate 200 OK — a deferred
call is answered at most once. -/
theorem claim3_answer_deferred_idempotent
    (create200ok : String → Nat → Nat → String → String)
    (mgr : SipMgrState) (cid : Nat) :
    ((answer_deferred_call create200ok mgr cid).1 = false →
      answer_deferred_call create200ok mgr cid = (false, mgr, [])) ∧
    (mgr.active_calls.lookup cid = none →
      answer_deferred_call create200ok mgr cid = (false, mgr, [])) ∧
    (∀ ci, mgr.active_calls.lookup cid = some ci →
      ci.incoming = false ∨ ci.deferred_answer = false ∨ ci.state ≠ "RINGING" →
      answer_deferred_call create200ok mgr cid = (false, mgr, [])) ∧
    ((answer_deferred_call create200ok mgr cid).1 = true →
      (∃ ci, mgr.active_calls.lookup cid = some ci ∧ ci.incoming = true ∧
        ci.deferred_answer = true ∧ ci.state = "RINGING") ∧
      (answer_deferred_call create200ok mgr cid).2.2.length = 1 ∧
      (((answer_deferred_call create200ok mgr cid).2.1.active_calls.lookup cid).map
        CallInfo.state) = some "ANSWERED") ∧
    ((answer_deferred_call create200ok mgr cid).1 = true →
      answer_deferred_call create200ok
          (answer_deferred_call create200ok mgr cid).2.1 cid =
        (false, (answer_deferred_call create200ok mgr cid).2.1, [])) := by
  rcases hlk : mgr.active_calls.lookup cid with _ | ci
  · have hcall : answer_deferred_call create200ok mgr cid = (false, mgr, []) := by
      simp [answer_deferred_call, hlk]
    refine ⟨fun _ => hcall, fun _ => hcall, fun _ _ _ => hcall, ?_, ?_⟩ <;>
      (intro h; rw [hcall] at h; simp at h)
  · by_cases hflags : ¬ci.incoming ∨ ¬ci.deferred_answer
    · have hcall : answer_deferred_call create200ok mgr cid = (false, mgr, []) := by
        rcases hflags with h | h <;> simp [answer_deferred_call, hlk, h]
      refine ⟨fun _ => hcall, fun _ => hcall, fun _ _ _ => hcall, ?_, ?_⟩ <;>
        (intro h; rw [hcall] at h; simp at h)
    · push_neg at hflags
      by_cases hst : ci.state = "RINGING"
      · rcases hraw : ci.raw_invite with _ | raw <;>
          rcases haddr : ci.sip_addr with _ | addr <;>
          rcases hacct : ci.account_id with _ | account_id
        case' pos.some.some.some => skip
        all_goals try {
          have hcall : answer_deferred_call create200ok mgr cid = (false, mgr, []) := by
            simp [answer_deferred_call, hlk, hraw, haddr, hacct, hflags.1, hflags.2, hst]
          refine ⟨fun _ => hcall, fun _ => hcall, fun _ _ _ => hcall, ?_, ?_⟩ <;>
            (intro h; rw [hcall] at h; simp at h) }
        -- remaining: raw, addr and account id all present
        by_cases hempty : raw.isEmpty
        · have hcall : answer_deferred_call create200ok mgr cid = (false, mgr, []) := by
            simp [answer_deferred_call, hlk, hraw, haddr, hacct, hflags.1, hflags.2,
              hst, hempty]
          refine ⟨fun _ => hcall, fun _ => hcall, fun _ _ _ => hcall, ?_, ?_⟩ <;>
            (intro h; rw [hcall] at h; simp at h)
        · rcases hsock : mgr.sockets.lookup account_id with _ | bound_port
          · have hcall : answer_deferred_call create200ok mgr cid = (false, mgr, []) := by
              simp [answer_deferred_call, hlk, hraw, haddr, hacct, hsock, hflags.1,
                hflags.2, hst, hempty]
            refine ⟨fun _ => hcall, fun _ => hcall, fun _ _ _ => hcall, ?_, ?_⟩ <;>
              (intro h; rw [hcall] at h; simp at h)
          · have hcall : answer_deferred_call create200ok mgr cid =
                (true,
                 { mgr with active_calls := mgr.active_calls.map (fun e =>
                    if e.1 = cid then
                      (e.1, { e.2 with deferred_answer := false, state := "ANSWERED" })
                    else e) },
                 [(if strContains (create200ok raw ci.rtp_port (ci.remote_pt.getD 0)
                      (ci.remote_codec.getD "PCMU"))
                      (":" ++ toString bound_port ++ ">") then
                    create200ok raw ci.rtp_port (ci.remote_pt.getD 0)
                      (ci.remote_codec.getD "PCMU")
                   else strReplace (create200ok raw ci.rtp_port (ci.remote_pt.getD 0)
                      (ci.remote_codec.getD "PCMU")) ":5060>"
                      (":" ++ toString bound_port ++ ">"), addr)]) := by
              simp [answer_deferred_call, hlk, hraw, haddr, hacct, hsock, hflags.1,
                hflags.2, hst, hempty]
            have hlk2 : (mgr.active_calls.map (fun e =>
                if e.1 = cid then
                  (e.1, { e.2 with deferred_answer := false, state := "ANSWERED" })
                else e)).lookup cid =
                some { ci with deferred_answer := false, state := "ANSWERED" } := by
              rw [lookup_map_update mgr.active_calls cid
                (fun v => { v with deferred_answer := false, state := "ANSWERED" }), hlk]
              rfl
            refine ⟨?_, ?_, ?_, ?_, ?_⟩
            · intro h
              rw [hcall] at h
              simp at h
            · intro h
              simp at h
            · intro ci' hci' hbad
              injection hci' with hci'
              subst hci'
              rcases hbad with h | h | h
              · rw [hflags.1] at h; simp at h
              · rw [hflags.2] at h; simp at h
              · exact absurd hst h
            · intro _
              refine ⟨⟨ci, rfl, hflags.1, hflags.2, hst⟩, ?_, ?_⟩
              · rw [hcall]
                rfl
              · rw [hcall]
                have : (mgr.active_calls.map (fun e =>
                    if e.1 = cid then
                      (e.1, { e.2 with deferred_answer := false, state := "ANSWERED" })
                    else e)).lookup cid =
                    some { ci with deferred_answer := false, state := "ANSWERED" } := hlk2
                simp [this]
            · intro _
              rw [hcall]
              simp [answer_deferred_call, hlk2]
      · have hcall : answer_deferred_call create200ok mgr cid = (false, mgr, []) := by
          simp [answer_deferred_call, hlk, hflags.1, hflags.2, hst]
        refine ⟨fun _ => hcall, fun _ => hcall, fun _ _ _ => hcall, ?_, ?_⟩ <;>
          (intro h; rw [hcall] at h; simp at h)

/-- A concrete 200 OK builder for the C3 witness (its output contains the
bound socket port, so the Contact rewrite is the identity). -/
def c3Create200ok : String → Nat → Nat → String → String :=
  fun _ _ _ _ => "SIP/2.0 200 OK Contact: <sip:10.0.0.1:5060>"

/-- The RINGING deferred incoming call of the C3 witness. -/
def c3Call : CallInfo where
  incoming := true
  deferred_answer := true
  state := "RINGING"
  raw_invite := some "INVITE sip:555 SIP/2.0"
  sip_addr := some ("10.0.0.9", 5060)
  account_id := some 7
  rtp_port := 10006
  remote_pt := some 0
  remote_codec := some "PCMU"

/-- A manager state with one RINGING deferred call (id 3, account 7). -/
def c3Mgr : SipMgrState where
  active_calls := [(3, c3Call)]
  sockets := [(7, 5060)]

/-- Witness for C3: answering the concrete RINGING deferred call sends
exactly one 200 OK and moves it to ANSWERED, and answering again is a
no-op that sends nothing. -/
theorem claim3_witness :
    (answer_deferred_call c3Create200ok c3Mgr 3).2.2.length = 1 ∧
    (((answer_deferred_call c3Create200ok c3Mgr 3).2.1.active_calls.lookup 3).map
      CallInfo.state) = some "ANSWERED" ∧
    answer_deferred_call c3Create200ok
        (answer_deferred_call c3Create200ok c3Mgr 3).2.1 3 =
      (false, (answer_deferred_call c3Create200ok c3Mgr 3).2.1, []) := by
  have h := claim3_answer_deferred_idempotent c3Create200ok c3Mgr 3
  have ht : (answer_deferred_call c3Create200ok c3Mgr 3).1 = true := by decide
  exact ⟨(h.2.2.2.1 ht).2.1, (h.2.2.2.1 ht).2.2, h.2.2.2.2 ht⟩

/- ============ MD5 digest authentication (RFC 1321 / RFC 2617) ============ -/

/-- The 64 MD5 sine-derived round constants of RFC 1321. -/
def md5K : List Nat := [
  3614090360, 3905402710, 606105819, 3250441966,
  4118548399, 1200080426, 2821735955, 4249261313,
  1770035416, 2336552879, 4294925233, 2304563134,
  1804603682, 4254626195, 2792965006, 1236535329,
  4129170786, 3225465664, 643717713, 3921069994,
  3593408605, 38016083, 3634488961, 3889429448,
  568446438, 3275163606, 4107603335, 1163531501,
  2850285829, 4243563512, 1735328473, 2368359562,
  4294588738, 2272392833, 1839030562, 4259657740,
  2763975236, 1272893353, 4139469664, 3200236656,
  681279174, 3936430074, 3572445317, 76029189,
  3654602809, 3873151461, 530742520, 3299628645,
  4096336452, 1126891415, 2878612391, 4237533241,
  1700485571, 2399980690, 4293915773, 2240044497,
  1873313359, 4264355552, 2734768916, 1309151649,
  4149444226, 3174756917, 718787259, 3951481745]

/-- The per-round left-rotation amounts of RFC 1321. -/
def md5S : List Nat := [
  7, 12, 17, 22, 7, 12, 17, 22, 7, 12, 17, 22, 7, 12, 17, 22,
  5, 9, 14, 20, 5, 9, 14, 20, 5, 9, 14, 20, 5, 9, 14, 20,
  4, 11, 16, 23, 4, 11, 16, 23, 4, 11, 16, 23, 4, 11, 16, 23,
  6, 10, 15, 21, 6, 10, 15, 21, 6, 10, 15, 21, 6, 10, 15, 21]

/-- Left rotation by `s` of a 32-bit value modelled as `Nat`. -/
def rotl32 (x s : Nat) : Nat :=
  ((x <<< s) ||| (x >>> (32 - s))) &&& 0xFFFFFFFF

/-- One MD5 round step `i` (0 ≤ i < 64) on state (a, b, c, d) with the
16 little-endian message words `M`. -/
def md5Step (M : List Nat) (st : Nat × Nat × Nat × Nat) (i : Nat) :
    Nat × Nat × Nat × Nat :=
  let a := st.1
  let b := st.2.1
  let c := st.2.2.1
  let d := st.2.2.2
  let f :=
    if i < 16 then (b &&& c) ||| ((b ^^^ 0xFFFFFFFF) &&& d)
    else if i < 32 then (b &&& d) ||| (c &&& (d ^^^ 0xFFFFFFFF))
    else if i < 48 then b ^^^ c ^^^ d
    else c ^^^ (b ||| (d ^^^ 0xFFFFFFFF))
  let g :=
    if i < 16 then i
    else if i < 32 then (5 * i + 1) % 16
    else if i < 48 then (3 * i + 5) % 16
    else (7 * i) % 16
  let tmp := (a + f + md5K.getD i 0 + M.getD g 0) &&& 0xFFFFFFFF
  let nb := (b + rotl32 tmp (md5S.getD i 0)) &&& 0xFFFFFFFF
  (d, nb, b, c)

/-- Group a byte string into 32-bit little-endian words. -/
def bytesToWordsLE : List Nat → List Nat
  | b0 :: b1 :: b2 :: b3 :: rest =>
    (b0 + 256 * (b1 + 256 * (b2 + 256 * b3))) :: bytesToWordsLE rest
  | _ => []

/-- The `count` little-endian bytes of `n`. -/
def toLEBytes : Nat → Nat → List Nat
  | _, 0 => []
  | n, count + 1 => (n % 256) :: toLEBytes (n / 256) count

/-- MD5 padding: append 0x80, zero-fill to 56 mod 64, then the original
length in bits as 8 little-endian bytes. -/
def md5Pad (msg : List Nat) : List Nat :=
  let padLen := (119 - msg.length % 64) % 64
  msg ++ 0x80 :: List.replicate padLen 0 ++ toLEBytes (msg.length * 8 % 2 ^ 64) 8

/-- Process one 64-byte block. -/
def md5Block (st : Nat × Nat × Nat × Nat) (block : List Nat) :
    Nat × Nat × Nat × Nat :=
  let M := bytesToWordsLE block
  let r := (List.range 64).foldl (md5Step M) st
  ((st.1 + r.1) &&& 0xFFFFFFFF, (st.2.1 + r.2.1) &&& 0xFFFFFFFF,
   (st.2.2.1 + r.2.2.1) &&& 0xFFFFFFFF, (st.2.2.2 + r.2.2.2) &&& 0xFFFFFFFF)

/-- Split a (padded) byte string into 64-byte blocks; the fuel is the
byte count, consumed 64 at a time. -/
def md5Chunks : Nat → List Nat → List (List Nat)
  | 0, _ => []
  | fuel + 1, l =>
    if l.isEmpty then [] else l.take 64 :: md5Chunks fuel (l.drop 64)

/-- The MD5 digest of a byte string, as 16 bytes. -/
def md5Bytes (msg : List Nat) : List Nat :=
  let padded := md5Pad msg
  let st := (md5Chunks padded.length padded).foldl md5Block
    (0x67452301, 0xefcdab89, 0x98badcfe, 0x10325476)
  toLEBytes st.1 4 ++ toLEBytes st.2.1 4 ++ toLEBytes st.2.2.1 4 ++ toLEBytes st.2.2.2 4

/-- Lowercase hex digit of a value below 16 (ASCII digits then letters). -/
def hexChar (n : Nat) : Char :=
  if n < 10 then Char.ofNat (48 + n) else Char.ofNat (87 + n)

/-- One byte as two lowercase hex characters. -/
def byteToHex (b : Nat) : List Char :=
  [hexChar (b / 16), hexChar (b % 16)]

/-- Python's `hashlib.md5(data).hexdigest()`. -/
def md5Hexdigest (msg : List Nat) : String :=
  String.mk ((md5Bytes msg).map byteToHex).flatten

/-- A string's bytes (the source encodes ASCII header fields). -/
def strBytes (s : String) : List Nat := s.data.map Char.toNat

/-- The digest computation shared by
`WorkingSipManager._create_auth_register_message` and
`EnhancedSipManager._create_auth_header`:
`HA1 = MD5(username:realm:password)`, `HA2 = MD5(method:uri)`,
`response = MD5(HA1:nonce:HA2)`, all as lowercase hex digests. -/
def digest_response (username realm password method uri nonce : String) : String :=
  let ha1 := md5Hexdigest (strBytes (username ++ ":" ++ realm ++ ":" ++ password))
  let ha2 := md5Hexdigest (strBytes (method ++ ":" ++ uri))
  md5Hexdigest (strBytes (ha1 ++ ":" ++ nonce ++ ":" ++ ha2))

set_option maxRecDepth 400000

/-- Sanity check: the embedded MD5 reproduces the RFC 1321 test vector
for the empty string. -/
lemma md5_rfc1321_empty : md5Hexdigest (strBytes "") = "d41d8cd98f00b204e9800998ecf8427e" := by
  decide

/-- Sanity check: the embedded MD5 reproduces the RFC 1321 test vector
for "abc". -/
lemma md5_rfc1321_abc : md5Hexdigest (strBytes "abc") = "900150983cd24fb0d6963f7d28e17f72" := by
  decide

/-- C9: the digest Authorization response is
MD5(HA1:nonce:HA2) with HA1 = MD5(username:realm:password) and
HA2 = MD5(method:uri); for user "JEFF01", realm "r", password "112233",
nonce "n1", method "REGISTER", uri "sip:d" it equals the RFC 2617
reference value for those inputs, byte for byte. -/
theorem claim9_digest_reference :
    digest_response "JEFF01" "r" "112233" "REGISTER" "sip:d" "n1" =
      "252335629bfa7938926e113b198cf988" := by
  decide
